import Mathlib

/-!
# helm-take-ownership: a shallow embedding of `main.go`

The program builds one hard-coded Helm release (namespace and secret manifests,
a chart descriptor, release metadata) and hands it to the release store.

Go strings are modelled by `String`, `[]byte` by `ByteArray`, the wall clock by
the sequence of its successive readings, and a slice of template pointers by a
slice header (backing array, offset, length, capacity) over an explicit heap of
backing arrays, so that the by-value passing of slice headers is visible.
-/

set_option autoImplicit false
set_option maxRecDepth 1000000

/-! ## The part of package `fmt` that the program uses -/

namespace fmt

/-- Expansion of a format string over string operands. The verb `%v` (and `%s`)
prints the next operand verbatim, `%%` prints a percent sign, a verb without an
operand prints `%!v(MISSING)` and left-over operands are reported in a trailing
`%!(EXTRA ...)` group. The program uses no other verb, flag or width, and none
is modelled: any other character is copied through. -/
def render : List Char → List String → List Char
  | [], [] => []
  | [], a :: rest =>
      "%!(EXTRA string=".data ++ a.data
        ++ (rest.map (fun s => ", string=".data ++ s.data)).flatten ++ [')']
  | '%' :: 'v' :: fs, a :: rest => a.data ++ render fs rest
  | '%' :: 's' :: fs, a :: rest => a.data ++ render fs rest
  | '%' :: 'v' :: fs, [] => "%!v(MISSING)".data ++ render fs []
  | '%' :: 's' :: fs, [] => "%!s(MISSING)".data ++ render fs []
  | '%' :: '%' :: fs, args => '%' :: render fs args
  | c :: fs, args => c :: render fs args

/-- The function `fmt.Sprintf`, on string operands. -/
def Sprintf (format : String) (args : List String) : String :=
  ⟨render format.data args⟩

end fmt

/-! ## Library records (`chart`, `timestamp`, `hapi`), with the fields the program sets -/

namespace chart

/-- The record `chart.Template`: a file name and the file's bytes. -/
structure Template where
  Name : String
  Data : ByteArray

/-- The record `chart.Metadata`. -/
structure Metadata where
  Name : String
  Version : String
  Description : String
  ApiVersion : String
  deriving DecidableEq

end chart

/-- A value of type `*chart.Template`; `none` is the nil pointer. -/
abbrev TemplatePtr := Option chart.Template

/-- A slice header of type `[]*chart.Template`: the backing array it points
into (an index into the heap), the offset of its first cell, its length and its
capacity. Headers are values: passing one to a function copies it. -/
structure Slice where
  arr : Nat
  off : Nat
  len : Nat
  cap : Nat
  deriving DecidableEq

/-- The heap of backing arrays allocated so far. -/
abbrev Heap := List (List TemplatePtr)

namespace Slice

/-- The nil slice: the zero value of a `var templates []*chart.Template`. -/
def nil : Slice := ⟨0, 0, 0, 0⟩

/-- The sequence a slice header denotes in a heap: `len` cells of its backing
array from `off` on. -/
def elems (h : Heap) (s : Slice) : List TemplatePtr :=
  ((h.getD s.arr []).drop s.off).take s.len

/-- A header that points into an allocated array and stays inside it. -/
def WellFormed (h : Heap) (s : Slice) : Prop :=
  s.len ≤ s.cap ∧ (s.cap = 0 ∨ (s.arr < h.length ∧ s.off + s.cap ≤ (h.getD s.arr []).length))

end Slice

/-- Capacity of the array allocated when an append outgrows the old one (the
runtime doubles small slices); always at least `needed`. -/
def growCap (oldCap needed : Nat) : Nat :=
  max needed (2 * oldCap)

/-- The built-in `append(s, x)` for one element. With spare capacity the
element is written into the shared backing array just after the slice's last
cell; otherwise a new array is allocated and the elements are copied. Either
way the result is a NEW header of length `len + 1`; the header `s` itself is
not changed. -/
def append (h : Heap) (s : Slice) (x : TemplatePtr) : Heap × Slice :=
  if s.len < s.cap then
    (h.set s.arr ((h.getD s.arr []).set (s.off + s.len) x), { s with len := s.len + 1 })
  else
    let newCap := growCap s.cap (s.len + 1)
    (h ++ [s.elems h ++ x :: List.replicate (newCap - (s.len + 1)) none],
     { arr := h.length, off := 0, len := s.len + 1, cap := newCap })

namespace chart

/-- The record `chart.Chart`. -/
structure Chart where
  Metadata : chart.Metadata
  Templates : Slice
  deriving DecidableEq

end chart

namespace timestamp

/-- The record `timestamp.Timestamp`. -/
structure Timestamp where
  Seconds : Int
  Nanos : Int
  deriving DecidableEq

end timestamp

namespace hapi

/-- The enumeration `hapi.Status_Code`. -/
inductive Status_Code where
  | UNKNOWN
  | DEPLOYED
  | DELETED
  | SUPERSEDED
  | FAILED
  | DELETING
  | PENDING_INSTALL
  | PENDING_UPGRADE
  | PENDING_ROLLBACK
  deriving DecidableEq

/-- The record `hapi.Status`. -/
structure Status where
  Code : Status_Code
  deriving DecidableEq

/-- The record `hapi.Info`. -/
structure Info where
  Status : hapi.Status
  FirstDeployed : timestamp.Timestamp
  LastDeployed : timestamp.Timestamp
  Description : String
  deriving DecidableEq

/-- The record `hapi.Release`. -/
structure Release where
  Name : String
  Info : hapi.Info
  Chart : chart.Chart
  Manifest : String
  Version : Int
  Namespace : String
  deriving DecidableEq

end hapi

/-! ## The wall clock -/

/-- The wall clock: the sequence of its successive readings and the number of
readings taken so far. -/
structure Clock where
  readings : Nat → timestamp.Timestamp
  taken : Nat

namespace timeconv

/-- The function `timeconv.Now`: the next reading of the clock. -/
def Now (c : Clock) : timestamp.Timestamp × Clock :=
  (c.readings c.taken, { c with taken := c.taken + 1 })

end timeconv

/-! ## The program -/

/-- Source `generateTemplate`: appends the fragment to its own copy of the
slice header (the parameter `templates`, which dies with the call) and returns
the manifest block. -/
def generateTemplate (h : Heap) (templates : Slice) (filename : String) (template : String) :
    Heap × String :=
  let (h, _templates) := append h templates (some { Name := filename, Data := template.toUTF8 })
  (h, fmt.Sprintf "\n---\n# Source: %v\n%v" [filename, template])

/-- The local `template` of `addNamespaceChartTemplate`. -/
def addNamespaceChartTemplate.template (name : String) : String :=
  fmt.Sprintf ("apiVersion: v1\n" ++
    "kind: Namespace\n" ++
    "metadata:\n" ++
    "  name: \"%v\"") [name]

/-- Source `addNamespaceChartTemplate`. -/
def addNamespaceChartTemplate (h : Heap) (templates : Slice) (name : String) : Heap × String :=
  let template := addNamespaceChartTemplate.template name
  let filename := "core-paas-namespaces/templates/namespaces.yaml"
  generateTemplate h templates filename template

/-- The local `template` of `addSecretChartTemplate`. -/
def addSecretChartTemplate.template (name : String) : String :=
  fmt.Sprintf ("apiVersion: v1\n" ++
    "kind: Secret\n" ++
    "type: kubernetes.io/dockercfg\n" ++
    "\n" ++
    "metadata:\n" ++
    "  name: \"devdocker-registrykey\"\n" ++
    "  namespace: \"%v\"\n" ++
    "\n" ++
    "data:\n" ++
    "  .dockercfg: eyJkZXZkb2NrZXIubXVsZXNvZnQuY29tOjE4MDc4Ijp7InVzZXJuYW1lIjoiYXJtLXB1Ymxpc2hlciIsInBhc3N3b3JkIjoiQWV3Nndlczl0aGFoNHdhIiwiZW1haWwiOiJ2YWxreXJAbXVsZXNvZnQuY29tIiwiYXV0aCI6IllYSnRMWEIxWW14cGMyaGxjanBCWlhjMmQyVnpPWFJvWVdnMGQyRT0ifX0=") [name]

/-- Source `addSecretChartTemplate`. -/
def addSecretChartTemplate (h : Heap) (templates : Slice) (name : String) : Heap × String :=
  let template := addSecretChartTemplate.template name
  let filename := "core-paas-namespaces/templates/docker-registry-secret.yaml"
  generateTemplate h templates filename template

/-- The local `template` of `addResourceQuotaChartTemplate`. -/
def addResourceQuotaChartTemplate.template (name : String) : String :=
  fmt.Sprintf ("apiVersion: v1\n" ++
    "kind: ResourceQuota\n" ++
    "metadata:\n" ++
    "  name: compute-resources\n" ++
    "  namespace: \"%v\"\n" ++
    "spec:\n" ++
    "  hard:\n" ++
    "    requests.cpu: 2\n" ++
    "    requests.memory: 8Gi\n" ++
    "    limits.cpu: 5\n" ++
    "    limits.memory: 10Gi") [name]

/-- Source `addResourceQuotaChartTemplate`. -/
def addResourceQuotaChartTemplate (h : Heap) (templates : Slice) (name : String) :
    Heap × String :=
  let template := addResourceQuotaChartTemplate.template name
  let filename := "core-paas-namespaces/templates/resource-quotas.yaml"
  generateTemplate h templates filename template

/-- One `for _, name := range namespaces { manifest += add(templates, name) }`
loop of `buildTemplates`: the header `templates` is passed by value at every
iteration, the heap and the manifest are threaded through. -/
def buildTemplates.loop (add : Heap → Slice → String → Heap × String) (templates : Slice) :
    List String → Heap × String → Heap × String
  | [], st => st
  | name :: rest, (h, manifest) =>
      let (h, block) := add h templates name
      buildTemplates.loop add templates rest (h, manifest ++ block)

/-- Source `buildTemplates`: returns its `templates` variable and the manifest. -/
def buildTemplates (h : Heap) : Heap × Slice × String :=
  let manifest := ""
  let namespaces : List String := []
  let namespaces := namespaces ++ ["api-tooling"]
  let namespaces := namespaces ++ ["design-center"]
  let namespaces := namespaces ++ ["exchange"]
  let templates : Slice := Slice.nil
  let (h, manifest) := buildTemplates.loop addNamespaceChartTemplate templates namespaces (h, manifest)
  let namespaces := namespaces ++ ["core-paas"]
  let (h, manifest) := buildTemplates.loop addSecretChartTemplate templates namespaces (h, manifest)
  (h, templates, manifest)

/-- Source `buildReleaseInfo`: the two timestamps are two readings of the
clock, taken in the order the fields are written. -/
def buildReleaseInfo (c : Clock) : hapi.Info × Clock :=
  let (first, c) := timeconv.Now c
  let (last, c) := timeconv.Now c
  ({ Status := { Code := hapi.Status_Code.DEPLOYED },
     FirstDeployed := first,
     LastDeployed := last,
     Description := "Transferred ownership to Helm via helm-take-ownership" }, c)

/-- Source `buildReleaseChart`. -/
def buildReleaseChart (templates : Slice) : chart.Chart :=
  { Metadata :=
      { Name := "core-paas-namespaces",
        Version := "0.4.0-pre.1",
        Description := "Chart built by helm-take-ownership",
        ApiVersion := "v1" },
    Templates := templates }

/-- Source `BuildRelease`. -/
def BuildRelease (h : Heap) (c : Clock) (name : String) : hapi.Release × Heap × Clock :=
  let (h, templates, manifest) := buildTemplates h
  let (info, c) := buildReleaseInfo c
  ({ Name := name,
     Info := info,
     Chart := buildReleaseChart templates,
     Manifest := manifest,
     Version := 1,
     Namespace := "core-paas" }, h, c)

/-! ## The entry point and the outside world -/

/-- The two calls of `main` that can fail, as the outside world answers them:
the result of `kube.New(nil).ClientSet()` and the result of `releases.Create`
on a release. An error is modelled by its message. -/
structure Env where
  ClientSet : Except String Unit
  Create : hapi.Release → Except String Unit

/-- What `main` does to the outside world. `driver.NewConfigMaps` and
`storage.Init` only build client values and leave no event. -/
inductive Event where
  | ClientSet
  | Print (msg : String)
  | Create (release : hapi.Release)
  deriving DecidableEq

/-- How `main` ends. -/
inductive Outcome where
  | returned
  | panicked (err : String)
  deriving DecidableEq

/-- Source `main` (function `main` of package `main`): the events in the order
they happen, and the outcome. -/
def Main.main (env : Env) (h : Heap) (c : Clock) : List Event × Outcome :=
  match env.ClientSet with
  | .error err => ([Event.ClientSet], Outcome.panicked err)
  | .ok _clientset =>
      let trace := [Event.ClientSet, Event.Print "Constructing Helm Release..."]
      let (release, _, _) := BuildRelease h c "core-paas-namespaces"
      let trace := trace ++ [Event.Print "\n", Event.Print "Installing Helm Chart..."]
      match env.Create release with
      | .error err => (trace ++ [Event.Create release], Outcome.panicked err)
      | .ok _ => (trace ++ [Event.Create release], Outcome.returned)

/-! ## Measures used to state the properties -/

/-- Number of `Create` events in a trace. -/
def createCount : List Event → Nat
  | [] => 0
  | Event.Create _ :: rest => createCount rest + 1
  | _ :: rest => createCount rest

/-- Left-to-right scan counting the non-overlapping occurrences of a non-empty
separator; `skip` cells are still covered by the last occurrence found. -/
def countFrom (sep : List Char) : Nat → List Char → Nat
  | _, [] => 0
  | skip + 1, _ :: cs => countFrom sep skip cs
  | 0, c :: cs =>
      if sep.isPrefixOf (c :: cs) then countFrom sep (sep.length - 1) cs + 1
      else countFrom sep 0 cs

/-- Number of non-overlapping occurrences of the separator `sep` in `s`. -/
def separatorCount (s sep : String) : Nat :=
  countFrom sep.data 0 s.data

/-! ## Facts about the slice model -/

/-- The nil slice denotes the empty sequence in every heap. -/
theorem Slice.elems_nil (h : Heap) : Slice.elems h Slice.nil = [] := by
  simp [Slice.elems, Slice.nil]

/-- A well-formed header denotes exactly `len` cells. -/
theorem Slice.length_elems (h : Heap) (s : Slice) (hw : Slice.WellFormed h s) :
    (Slice.elems h s).length = s.len := by
  obtain ⟨h1, h2⟩ := hw
  simp only [Slice.elems, List.length_take, List.length_drop]
  rcases h2 with h0 | ⟨_, hb⟩
  · omega
  · omega

/-- The header RETURNED by `append` denotes the old sequence with the new
element at the end. -/
theorem append_result (h : Heap) (s : Slice) (x : TemplatePtr) (hw : Slice.WellFormed h s) :
    Slice.elems (append h s x).1 (append h s x).2 = Slice.elems h s ++ [x] := by
  have hlen := Slice.length_elems h s hw
  obtain ⟨h1, h2⟩ := hw
  unfold append
  split
  · rename_i hlt
    rcases h2 with h0 | ⟨ha, hb⟩
    · omega
    · simp only [Slice.elems] at hlen ⊢
      have hget : (h.set s.arr ((h.getD s.arr []).set (s.off + s.len) x)).getD s.arr []
          = (h.getD s.arr []).set (s.off + s.len) x := by
        simp [List.getD_eq_getElem?_getD, ha]
      rw [hget]
      generalize h.getD s.arr [] = a at hlen hb ⊢
      apply List.ext_getElem?
      intro i
      rcases Nat.lt_trichotomy i s.len with hi | hi | hi
      · rw [List.getElem?_append_left (by omega)]
        simp only [List.getElem?_take, List.getElem?_drop]
        rw [if_pos (by omega), if_pos hi, List.getElem?_set_ne (by omega)]
      · subst hi
        rw [List.getElem?_append_right (by omega), hlen]
        simp only [List.getElem?_take, List.getElem?_drop]
        rw [if_pos (by omega), List.getElem?_set_self (by omega)]
        simp
      · have hl : (List.take (s.len + 1) (List.drop s.off (a.set (s.off + s.len) x))).length ≤ i :=
          Nat.le_trans (List.length_take_le _ _) hi
        have hr : (List.take s.len (List.drop s.off a) ++ [x]).length ≤ i := by
          rw [List.length_append, hlen, List.length_singleton]
          omega
        rw [List.getElem?_eq_none hl, List.getElem?_eq_none hr]
  · have hlen2 := hlen
    simp only [Slice.elems, List.getD_eq_getElem?_getD, List.getElem?_concat_length,
      Option.getD_some, List.drop_zero]
    simp only [Slice.elems, List.getD_eq_getElem?_getD] at hlen2
    rw [List.take_append_eq_append_take, List.take_of_length_le (by omega), hlen2]
    simp

/-- The header PASSED to `append` denotes the same sequence before and after:
an in-place write lands beyond its last cell, a reallocation leaves its array
alone. -/
theorem append_frame (h : Heap) (s : Slice) (x : TemplatePtr)
    (hw : s.len = 0 ∨ s.arr < h.length) :
    Slice.elems (append h s x).1 s = Slice.elems h s := by
  unfold append
  split
  · simp only [Slice.elems]
    apply List.ext_getElem?
    intro i
    by_cases ha : s.arr < h.length
    · simp only [List.getD_eq_getElem?_getD, List.getElem?_set, ha, List.getElem?_take,
        List.getElem?_drop]
      simp only [↓reduceIte, Option.getD_some]
      split
      · rw [List.getElem?_set_ne (by omega)]
      · rfl
    · have hset : h.set s.arr ((h.getD s.arr []).set (s.off + s.len) x) = h := by
        apply List.set_eq_of_length_le
        omega
      rw [hset]
  · rcases hw with h0 | ha
    · simp [Slice.elems, h0]
    · simp [Slice.elems, List.getD_eq_getElem?_getD, List.getElem?_append_left ha]

/-! ## Facts about the program, shared by the results below -/

/-- The string `generateTemplate` returns. -/
theorem generateTemplate_returns (h : Heap) (ts : Slice) (f c : String) :
    (generateTemplate h ts f c).2 = "\n---\n# Source: " ++ f ++ "\n" ++ c := by
  apply String.ext
  simp [generateTemplate, fmt.Sprintf, fmt.render]

/-- The caller's header denotes the same sequence after `generateTemplate` as before. -/
theorem generateTemplate_frame (h : Heap) (ts : Slice) (f c : String)
    (hw : ts.len = 0 ∨ ts.arr < h.length) :
    Slice.elems (generateTemplate h ts f c).1 ts = Slice.elems h ts :=
  append_frame h ts _ hw

/-- The header `buildTemplates` returns is the nil header it declared. -/
theorem buildTemplates_templates (h : Heap) : (buildTemplates h).2.1 = Slice.nil :=
  rfl

/-- The manifest `buildTemplates` returns, block by block. -/
theorem buildTemplates_manifest (h : Heap) :
    (buildTemplates h).2.2 =
      ("\n---\n# Source: " ++ "core-paas-namespaces/templates/namespaces.yaml" ++ "\n"
          ++ "apiVersion: v1\nkind: Namespace\nmetadata:\n  name: \"api-tooling\"")
      ++ ("\n---\n# Source: " ++ "core-paas-namespaces/templates/namespaces.yaml" ++ "\n"
          ++ "apiVersion: v1\nkind: Namespace\nmetadata:\n  name: \"design-center\"")
      ++ ("\n---\n# Source: " ++ "core-paas-namespaces/templates/namespaces.yaml" ++ "\n"
          ++ "apiVersion: v1\nkind: Namespace\nmetadata:\n  name: \"exchange\"")
      ++ ("\n---\n# Source: " ++ "core-paas-namespaces/templates/docker-registry-secret.yaml" ++ "\n"
          ++ "apiVersion: v1\nkind: Secret\ntype: kubernetes.io/dockercfg\n\nmetadata:\n  name: \"devdocker-registrykey\"\n  namespace: \"api-tooling\"\n\ndata:\n  .dockercfg: eyJkZXZkb2NrZXIubXVsZXNvZnQuY29tOjE4MDc4Ijp7InVzZXJuYW1lIjoiYXJtLXB1Ymxpc2hlciIsInBhc3N3b3JkIjoiQWV3Nndlczl0aGFoNHdhIiwiZW1haWwiOiJ2YWxreXJAbXVsZXNvZnQuY29tIiwiYXV0aCI6IllYSnRMWEIxWW14cGMyaGxjanBCWlhjMmQyVnpPWFJvWVdnMGQyRT0ifX0=")
      ++ ("\n---\n# Source: " ++ "core-paas-namespaces/templates/docker-registry-secret.yaml" ++ "\n"
          ++ "apiVersion: v1\nkind: Secret\ntype: kubernetes.io/dockercfg\n\nmetadata:\n  name: \"devdocker-registrykey\"\n  namespace: \"design-center\"\n\ndata:\n  .dockercfg: eyJkZXZkb2NrZXIubXVsZXNvZnQuY29tOjE4MDc4Ijp7InVzZXJuYW1lIjoiYXJtLXB1Ymxpc2hlciIsInBhc3N3b3JkIjoiQWV3Nndlczl0aGFoNHdhIiwiZW1haWwiOiJ2YWxreXJAbXVsZXNvZnQuY29tIiwiYXV0aCI6IllYSnRMWEIxWW14cGMyaGxjanBCWlhjMmQyVnpPWFJvWVdnMGQyRT0ifX0=")
      ++ ("\n---\n# Source: " ++ "core-paas-namespaces/templates/docker-registry-secret.yaml" ++ "\n"
          ++ "apiVersion: v1\nkind: Secret\ntype: kubernetes.io/dockercfg\n\nmetadata:\n  name: \"devdocker-registrykey\"\n  namespace: \"exchange\"\n\ndata:\n  .dockercfg: eyJkZXZkb2NrZXIubXVsZXNvZnQuY29tOjE4MDc4Ijp7InVzZXJuYW1lIjoiYXJtLXB1Ymxpc2hlciIsInBhc3N3b3JkIjoiQWV3Nndlczl0aGFoNHdhIiwiZW1haWwiOiJ2YWxreXJAbXVsZXNvZnQuY29tIiwiYXV0aCI6IllYSnRMWEIxWW14cGMyaGxjanBCWlhjMmQyVnpPWFJvWVdnMGQyRT0ifX0=")
      ++ ("\n---\n# Source: " ++ "core-paas-namespaces/templates/docker-registry-secret.yaml" ++ "\n"
          ++ "apiVersion: v1\nkind: Secret\ntype: kubernetes.io/dockercfg\n\nmetadata:\n  name: \"devdocker-registrykey\"\n  namespace: \"core-paas\"\n\ndata:\n  .dockercfg: eyJkZXZkb2NrZXIubXVsZXNvZnQuY29tOjE4MDc4Ijp7InVzZXJuYW1lIjoiYXJtLXB1Ymxpc2hlciIsInBhc3N3b3JkIjoiQWV3Nndlczl0aGFoNHdhIiwiZW1haWwiOiJ2YWxreXJAbXVsZXNvZnQuY29tIiwiYXV0aCI6IllYSnRMWEIxWW14cGMyaGxjanBCWlhjMmQyVnpPWFJvWVdnMGQyRT0ifX0=") := by
  rfl

/-! ## Results -/

/-- C1, on the code: for every heap, the header `buildTemplates` returns is the
nil header and denotes the empty sequence in the heap `buildTemplates` leaves,
and so does `Chart.Templates` of `BuildRelease` for every clock and name: the
returned fragment sequence has 0 entries, not 7. -/
theorem buildTemplates_returns_no_fragment (h : Heap) :
    (buildTemplates h).2.1 = Slice.nil ∧
    Slice.elems (buildTemplates h).1 (buildTemplates h).2.1 = [] ∧
    (Slice.elems (buildTemplates h).1 (buildTemplates h).2.1).length = 0 ∧
    (∀ (c : Clock) (name : String),
      Slice.elems (BuildRelease h c name).2.1 (BuildRelease h c name).1.Chart.Templates = []) := by
  refine ⟨rfl, ?_, ?_, ?_⟩
  · rw [buildTemplates_templates]
    exact Slice.elems_nil _
  · rw [buildTemplates_templates, Slice.elems_nil]
    rfl
  · intro c name
    exact Slice.elems_nil _

/-- C2, on the code: let the caller hold the entries `xs` in a backing array
with `k` spare cells (`xs = []`, `k = 0` is the nil-like case). After
`generateTemplate`, `addNamespaceChartTemplate`, `addSecretChartTemplate` or
`addResourceQuotaChartTemplate` returns, the caller's sequence is still `xs`:
nothing was appended to it and its length did not grow. -/
theorem generateTemplate_leaves_caller_sequence (xs : List TemplatePtr) (k : Nat)
    (f c : String) :
    Slice.elems [xs ++ List.replicate k none] ⟨0, 0, xs.length, xs.length + k⟩ = xs ∧
    Slice.elems (generateTemplate [xs ++ List.replicate k none]
      ⟨0, 0, xs.length, xs.length + k⟩ f c).1 ⟨0, 0, xs.length, xs.length + k⟩ = xs ∧
    Slice.elems (addNamespaceChartTemplate [xs ++ List.replicate k none]
      ⟨0, 0, xs.length, xs.length + k⟩ c).1 ⟨0, 0, xs.length, xs.length + k⟩ = xs ∧
    Slice.elems (addSecretChartTemplate [xs ++ List.replicate k none]
      ⟨0, 0, xs.length, xs.length + k⟩ c).1 ⟨0, 0, xs.length, xs.length + k⟩ = xs ∧
    Slice.elems (addResourceQuotaChartTemplate [xs ++ List.replicate k none]
      ⟨0, 0, xs.length, xs.length + k⟩ c).1 ⟨0, 0, xs.length, xs.length + k⟩ = xs ∧
    Slice.elems (generateTemplate [] Slice.nil f c).1 Slice.nil = [] := by
  have hbefore :
      Slice.elems [xs ++ List.replicate k none] ⟨0, 0, xs.length, xs.length + k⟩ = xs := by
    simp [Slice.elems]
  have hw : (Slice.mk 0 0 xs.length (xs.length + k)).len = 0 ∨
      (Slice.mk 0 0 xs.length (xs.length + k)).arr
        < List.length ([xs ++ List.replicate k none] : Heap) := by
    right
    simp
  refine ⟨hbefore, ?_, ?_, ?_, ?_, ?_⟩
  · rw [generateTemplate_frame _ _ _ _ hw, hbefore]
  · unfold addNamespaceChartTemplate
    rw [generateTemplate_frame _ _ _ _ hw, hbefore]
  · unfold addSecretChartTemplate
    rw [generateTemplate_frame _ _ _ _ hw, hbefore]
  · unfold addResourceQuotaChartTemplate
    rw [generateTemplate_frame _ _ _ _ hw, hbefore]
  · exact Slice.elems_nil _

/-- C3, on the code: for the pair `buildTemplates` returns, the manifest holds
7 occurrences of the separator `---` while the fragment sequence has length 0. -/
theorem buildTemplates_separators_exceed_fragments (h : Heap) :
    separatorCount (buildTemplates h).2.2 "---" = 7 ∧
    (Slice.elems (buildTemplates h).1 (buildTemplates h).2.1).length = 0 := by
  constructor
  · rw [buildTemplates_manifest]
    decide!
  · rw [buildTemplates_templates, Slice.elems_nil]
    rfl

/-- C4: the manifest `buildTemplates` returns is the concatenation of the seven
blocks `"\n---\n# Source: " ++ filename ++ "\n" ++ content`, three namespace
blocks then four secret blocks, in list order, with nothing before, between or
after; and `generateTemplate` returns exactly that block for every file name
and content. -/
theorem buildTemplates_manifest_blocks :
    (∀ h : Heap, (buildTemplates h).2.2 =
      ("\n---\n# Source: " ++ "core-paas-namespaces/templates/namespaces.yaml" ++ "\n"
          ++ "apiVersion: v1\nkind: Namespace\nmetadata:\n  name: \"api-tooling\"")
      ++ ("\n---\n# Source: " ++ "core-paas-namespaces/templates/namespaces.yaml" ++ "\n"
          ++ "apiVersion: v1\nkind: Namespace\nmetadata:\n  name: \"design-center\"")
      ++ ("\n---\n# Source: " ++ "core-paas-namespaces/templates/namespaces.yaml" ++ "\n"
          ++ "apiVersion: v1\nkind: Namespace\nmetadata:\n  name: \"exchange\"")
      ++ ("\n---\n# Source: " ++ "core-paas-namespaces/templates/docker-registry-secret.yaml" ++ "\n"
          ++ "apiVersion: v1\nkind: Secret\ntype: kubernetes.io/dockercfg\n\nmetadata:\n  name: \"devdocker-registrykey\"\n  namespace: \"api-tooling\"\n\ndata:\n  .dockercfg: eyJkZXZkb2NrZXIubXVsZXNvZnQuY29tOjE4MDc4Ijp7InVzZXJuYW1lIjoiYXJtLXB1Ymxpc2hlciIsInBhc3N3b3JkIjoiQWV3Nndlczl0aGFoNHdhIiwiZW1haWwiOiJ2YWxreXJAbXVsZXNvZnQuY29tIiwiYXV0aCI6IllYSnRMWEIxWW14cGMyaGxjanBCWlhjMmQyVnpPWFJvWVdnMGQyRT0ifX0=")
      ++ ("\n---\n# Source: " ++ "core-paas-namespaces/templates/docker-registry-secret.yaml" ++ "\n"
          ++ "apiVersion: v1\nkind: Secret\ntype: kubernetes.io/dockercfg\n\nmetadata:\n  name: \"devdocker-registrykey\"\n  namespace: \"design-center\"\n\ndata:\n  .dockercfg: eyJkZXZkb2NrZXIubXVsZXNvZnQuY29tOjE4MDc4Ijp7InVzZXJuYW1lIjoiYXJtLXB1Ymxpc2hlciIsInBhc3N3b3JkIjoiQWV3Nndlczl0aGFoNHdhIiwiZW1haWwiOiJ2YWxreXJAbXVsZXNvZnQuY29tIiwiYXV0aCI6IllYSnRMWEIxWW14cGMyaGxjanBCWlhjMmQyVnpPWFJvWVdnMGQyRT0ifX0=")
      ++ ("\n---\n# Source: " ++ "core-paas-namespaces/templates/docker-registry-secret.yaml" ++ "\n"
          ++ "apiVersion: v1\nkind: Secret\ntype: kubernetes.io/dockercfg\n\nmetadata:\n  name: \"devdocker-registrykey\"\n  namespace: \"exchange\"\n\ndata:\n  .dockercfg: eyJkZXZkb2NrZXIubXVsZXNvZnQuY29tOjE4MDc4Ijp7InVzZXJuYW1lIjoiYXJtLXB1Ymxpc2hlciIsInBhc3N3b3JkIjoiQWV3Nndlczl0aGFoNHdhIiwiZW1haWwiOiJ2YWxreXJAbXVsZXNvZnQuY29tIiwiYXV0aCI6IllYSnRMWEIxWW14cGMyaGxjanBCWlhjMmQyVnpPWFJvWVdnMGQyRT0ifX0=")
      ++ ("\n---\n# Source: " ++ "core-paas-namespaces/templates/docker-registry-secret.yaml" ++ "\n"
          ++ "apiVersion: v1\nkind: Secret\ntype: kubernetes.io/dockercfg\n\nmetadata:\n  name: \"devdocker-registrykey\"\n  namespace: \"core-paas\"\n\ndata:\n  .dockercfg: eyJkZXZkb2NrZXIubXVsZXNvZnQuY29tOjE4MDc4Ijp7InVzZXJuYW1lIjoiYXJtLXB1Ymxpc2hlciIsInBhc3N3b3JkIjoiQWV3Nndlczl0aGFoNHdhIiwiZW1haWwiOiJ2YWxreXJAbXVsZXNvZnQuY29tIiwiYXV0aCI6IllYSnRMWEIxWW14cGMyaGxjanBCWlhjMmQyVnpPWFJvWVdnMGQyRT0ifX0=")) ∧
    (∀ (h : Heap) (ts : Slice) (f c : String),
      (generateTemplate h ts f c).2 = "\n---\n# Source: " ++ f ++ "\n" ++ c) :=
  ⟨buildTemplates_manifest, generateTemplate_returns⟩

/-- C5: for every target name `n` the Secret text is `P ++ n ++ S` for two
constants: `P` ends with the opening of the `metadata.namespace` value and `S`
ends with the line `  .dockercfg: ` followed by the compiled-in blob. So the
text ends with that same line for every name, two names give texts that differ
only in the name, and the block `addSecretChartTemplate` returns is the source
header followed by that text. -/
theorem addSecretChartTemplate_constant_around_name :
    (∀ n : String, addSecretChartTemplate.template n =
      "apiVersion: v1\nkind: Secret\ntype: kubernetes.io/dockercfg\n\nmetadata:\n  name: \"devdocker-registrykey\"\n  namespace: \""
        ++ n ++ "\"\n\ndata:\n  .dockercfg: eyJkZXZkb2NrZXIubXVsZXNvZnQuY29tOjE4MDc4Ijp7InVzZXJuYW1lIjoiYXJtLXB1Ymxpc2hlciIsInBhc3N3b3JkIjoiQWV3Nndlczl0aGFoNHdhIiwiZW1haWwiOiJ2YWxreXJAbXVsZXNvZnQuY29tIiwiYXV0aCI6IllYSnRMWEIxWW14cGMyaGxjanBCWlhjMmQyVnpPWFJvWVdnMGQyRT0ifX0=") ∧
    (∀ n : String, ∃ before : String, addSecretChartTemplate.template n =
      before ++ "\n  .dockercfg: eyJkZXZkb2NrZXIubXVsZXNvZnQuY29tOjE4MDc4Ijp7InVzZXJuYW1lIjoiYXJtLXB1Ymxpc2hlciIsInBhc3N3b3JkIjoiQWV3Nndlczl0aGFoNHdhIiwiZW1haWwiOiJ2YWxreXJAbXVsZXNvZnQuY29tIiwiYXV0aCI6IllYSnRMWEIxWW14cGMyaGxjanBCWlhjMmQyVnpPWFJvWVdnMGQyRT0ifX0=") ∧
    (∀ (h : Heap) (ts : Slice) (n : String), (addSecretChartTemplate h ts n).2 =
      "\n---\n# Source: core-paas-namespaces/templates/docker-registry-secret.yaml\n"
        ++ addSecretChartTemplate.template n) := by
  have hshape : ∀ n : String, addSecretChartTemplate.template n =
      "apiVersion: v1\nkind: Secret\ntype: kubernetes.io/dockercfg\n\nmetadata:\n  name: \"devdocker-registrykey\"\n  namespace: \""
        ++ n ++ "\"\n\ndata:\n  .dockercfg: eyJkZXZkb2NrZXIubXVsZXNvZnQuY29tOjE4MDc4Ijp7InVzZXJuYW1lIjoiYXJtLXB1Ymxpc2hlciIsInBhc3N3b3JkIjoiQWV3Nndlczl0aGFoNHdhIiwiZW1haWwiOiJ2YWxreXJAbXVsZXNvZnQuY29tIiwiYXV0aCI6IllYSnRMWEIxWW14cGMyaGxjanBCWlhjMmQyVnpPWFJvWVdnMGQyRT0ifX0=" := by
    intro n
    apply String.ext
    simp [addSecretChartTemplate.template, fmt.Sprintf, fmt.render]
  refine ⟨hshape, ?_, ?_⟩
  · intro n
    refine ⟨"apiVersion: v1\nkind: Secret\ntype: kubernetes.io/dockercfg\n\nmetadata:\n  name: \"devdocker-registrykey\"\n  namespace: \""
        ++ n ++ "\"\n\ndata:", ?_⟩
    rw [hshape n]
    apply String.ext
    simp
  · intro h ts n
    unfold addSecretChartTemplate
    rw [generateTemplate_returns]
    apply String.ext
    simp

/-- C6: for every heap, clock and release name `n`, the record `BuildRelease`
returns has Name `n`, Version 1, Namespace "core-paas", status code DEPLOYED,
chart name "core-paas-namespaces", the manifest of `buildTemplates` and the
chart `buildReleaseChart` makes of the fragment sequence of `buildTemplates`. -/
theorem BuildRelease_record (h : Heap) (c : Clock) (n : String) :
    (BuildRelease h c n).1.Name = n ∧
    (BuildRelease h c n).1.Version = 1 ∧
    (BuildRelease h c n).1.Namespace = "core-paas" ∧
    (BuildRelease h c n).1.Info.Status.Code = hapi.Status_Code.DEPLOYED ∧
    (BuildRelease h c n).1.Chart.Metadata.Name = "core-paas-namespaces" ∧
    (BuildRelease h c n).1.Manifest = (buildTemplates h).2.2 ∧
    (BuildRelease h c n).1.Chart = buildReleaseChart (buildTemplates h).2.1 :=
  ⟨rfl, rfl, rfl, rfl, rfl, rfl, rfl⟩

/-- C7: for every fragment list, `buildReleaseChart` returns a descriptor with
name "core-paas-namespaces", version "0.4.0-pre.1", description "Chart built by
helm-take-ownership", API version "v1" and, as Templates, the very header it was
given, which denotes the same entries in the same order in every heap. -/
theorem buildReleaseChart_descriptor (ts : Slice) :
    (buildReleaseChart ts).Metadata.Name = "core-paas-namespaces" ∧
    (buildReleaseChart ts).Metadata.Version = "0.4.0-pre.1" ∧
    (buildReleaseChart ts).Metadata.Description = "Chart built by helm-take-ownership" ∧
    (buildReleaseChart ts).Metadata.ApiVersion = "v1" ∧
    (buildReleaseChart ts).Templates = ts ∧
    (∀ h : Heap, Slice.elems h (buildReleaseChart ts).Templates = Slice.elems h ts) ∧
    Slice.elems [] (buildReleaseChart Slice.nil).Templates = [] ∧
    (∀ t : chart.Template,
      Slice.elems [[some t, some t]] (buildReleaseChart ⟨0, 0, 2, 2⟩).Templates
        = [some t, some t]) :=
  ⟨rfl, rfl, rfl, rfl, rfl, fun _ => rfl, rfl, fun _ => rfl⟩

/-- C8: `main` panics exactly when client construction fails or `Create` fails
on the release `BuildRelease` makes for "core-paas-namespaces", and it panics
with the error of the call that failed. Either client construction fails and
`Create` is never called, or it succeeds and `Create` is called exactly once,
with that release, as the last thing the program does. -/
theorem main_fails_iff_a_call_fails (env : Env) (h : Heap) (c : Clock) :
    ((Main.main env h c).2 ≠ Outcome.returned ↔
      ((∃ err, env.ClientSet = Except.error err) ∨
       (∃ err, env.Create (BuildRelease h c "core-paas-namespaces").1 = Except.error err))) ∧
    (∀ err, (Main.main env h c).2 = Outcome.panicked err ↔
      (env.ClientSet = Except.error err ∨
       ((∃ u, env.ClientSet = Except.ok u) ∧
        env.Create (BuildRelease h c "core-paas-namespaces").1 = Except.error err))) ∧
    (((∃ err, env.ClientSet = Except.error err) ∧
        createCount (Main.main env h c).1 = 0) ∨
     ((∃ u, env.ClientSet = Except.ok u) ∧
        createCount (Main.main env h c).1 = 1 ∧
        (Main.main env h c).1.getLast?
          = some (Event.Create (BuildRelease h c "core-paas-namespaces").1))) := by
  unfold Main.main
  cases hcs : env.ClientSet with
  | error e => simp [createCount]
  | ok u =>
    cases hcr : env.Create (BuildRelease h c "core-paas-namespaces").1 with
    | error e2 => simp [hcr, createCount]
    | ok u2 => simp [hcr, createCount]

/-- C9, a clock that advances between two readings: the release built on it has
different first-deployed and last-deployed timestamps. -/
theorem BuildRelease_timestamps_can_differ :
    (BuildRelease [] ⟨fun k => ⟨1700000000, k⟩, 0⟩ "core-paas-namespaces").1.Info.FirstDeployed
      ≠ (BuildRelease [] ⟨fun k => ⟨1700000000, k⟩, 0⟩ "core-paas-namespaces").1.Info.LastDeployed := by
  decide

/-- C9 as amended: in the release `BuildRelease` builds, the first-deployed
timestamp is the next reading of the clock and the last-deployed timestamp is
the reading after it; the two are equal exactly when those two successive
readings are equal, and two readings are consumed. -/
theorem BuildRelease_timestamps_successive_readings (h : Heap) (c : Clock) (n : String) :
    (BuildRelease h c n).1.Info.FirstDeployed = c.readings c.taken ∧
    (BuildRelease h c n).1.Info.LastDeployed = c.readings (c.taken + 1) ∧
    ((BuildRelease h c n).1.Info.FirstDeployed = (BuildRelease h c n).1.Info.LastDeployed ↔
      c.readings c.taken = c.readings (c.taken + 1)) ∧
    (BuildRelease h c n).2.2.taken = c.taken + 2 :=
  ⟨rfl, rfl, Iff.rfl, rfl⟩

/-- C10: for every name, `addResourceQuotaChartTemplate` returns the same string
whatever the heap and the fragment sequence, in particular when called a second
time after the first call; the string is the source header for
resource-quotas.yaml followed by the ResourceQuota text with the name as
`metadata.namespace` and the hard limits 2, 8Gi, 5 and 10Gi. -/
theorem addResourceQuotaChartTemplate_repeatable (n : String) :
    (∀ (h : Heap) (ts : Slice), (addResourceQuotaChartTemplate h ts n).2 =
      "\n---\n# Source: core-paas-namespaces/templates/resource-quotas.yaml\n"
        ++ "apiVersion: v1\nkind: ResourceQuota\nmetadata:\n  name: compute-resources\n  namespace: \""
        ++ n
        ++ "\"\nspec:\n  hard:\n    requests.cpu: 2\n    requests.memory: 8Gi\n    limits.cpu: 5\n    limits.memory: 10Gi") ∧
    (∀ (h : Heap) (ts : Slice),
      (addResourceQuotaChartTemplate (addResourceQuotaChartTemplate h ts n).1 ts n).2
        = (addResourceQuotaChartTemplate h ts n).2) ∧
    (∀ (h1 h2 : Heap) (ts1 ts2 : Slice),
      (addResourceQuotaChartTemplate h1 ts1 n).2 = (addResourceQuotaChartTemplate h2 ts2 n).2) := by
  have hshape : ∀ (h : Heap) (ts : Slice), (addResourceQuotaChartTemplate h ts n).2 =
      "\n---\n# Source: core-paas-namespaces/templates/resource-quotas.yaml\n"
        ++ "apiVersion: v1\nkind: ResourceQuota\nmetadata:\n  name: compute-resources\n  namespace: \""
        ++ n
        ++ "\"\nspec:\n  hard:\n    requests.cpu: 2\n    requests.memory: 8Gi\n    limits.cpu: 5\n    limits.memory: 10Gi" := by
    intro h ts
    unfold addResourceQuotaChartTemplate
    rw [generateTemplate_returns]
    apply String.ext
    simp [addResourceQuotaChartTemplate.template, fmt.Sprintf, fmt.render]
  refine ⟨hshape, ?_, ?_⟩
  · intro h ts
    rw [hshape, hshape]
  · intro h1 h2 ts1 ts2
    rw [hshape, hshape]
